import Mathlib

/-!
Verification of the RFID-read-tags repository against its specification.

The development shallowly embeds the two components the claims are about:

* `Etx` — the `EnhancedMessageTransmitter` of `src/rabbitmq_etx.py`
  (connection state, publish with exception handling, fallback file,
  replay of fallback messages, `transmit_message`).  Nondeterministic
  outcomes of the outside world (connection health probes, whether a
  `basic_publish` or a file write raises) are passed in as explicit
  boolean parameters; wall-clock time is passed in as a `Nat` of unix
  milliseconds.
* `Rfid` — the pairing scanner of `src/rfid_rabbitmq.py`
  (`_determine_item_type`, `_create_scanned_item`,
  `_process_scanned_item`, `run_once`).  The transmitter used there
  (`MessageTransmitter.transmit_message` of `src/rabbitmq_tx.py`) raises
  exactly when the publish fails, so a delivery attempt is modelled by a
  single boolean `deliverOk` (`true` = `transmit_message` returned,
  `false` = it raised).

Python dict truthiness (`if not d:`) is modelled by emptiness of an
association list; exceptions of the modelled functions are `Except`
results.  Logging, LED signalling and the background monitor thread have
no effect on the modelled state and are omitted.
-/

namespace Etx

/-- A Python dict payload handed to `transmit_message`, as an association
list of string keys and (stringified, `default=str`) values. -/
abbrev Payload := List (String × String)

/-- The possible arguments of `transmit_message`: the dict case and the
non-dict cases rejected by the `isinstance(message_data, dict)` check. -/
inductive PyValue where
  | dict (d : Payload)
  | str (s : String)
  | int (n : Int)
  | listv (l : List String)
  | noneV
  deriving DecidableEq, Repr

/-- Exceptions `transmit_message` can raise: `ValueError` from input
validation, `RuntimeError` when both RabbitMQ and the fallback file
transmission fail. -/
inductive TxError where
  | valueError
  | runtimeError
  deriving DecidableEq, Repr

/-- `msg_{int(datetime.now().timestamp() * 1000)}` — the `_message_id`
field built in `transmit_message` (identical in `rabbitmq_etx.py` line 368
and `rabbitmq_tx.py` line 211). -/
def mkMessageId (nowMillis : Nat) : String :=
  "msg_" ++ Nat.repr nowMillis

/-- The composed message: a copy of the payload plus the transmission
metadata added by `transmit_message` (`_timestamp`, `_message_id`,
`_total_fields`).  `_transmission_method` and `_fallback_queue_size` are
added after the delivery attempt and are returned alongside. -/
structure ComposedMsg where
  data : Payload
  timestamp : Nat
  messageId : String
  totalFields : Nat
  deriving DecidableEq, Repr

/-- The metadata attached in `transmit_message` before any delivery
attempt. -/
def composeMessage (d : Payload) (nowMillis : Nat) : ComposedMsg :=
  { data := d
    timestamp := nowMillis
    messageId := mkMessageId nowMillis
    totalFields := d.length }

/-- One entry of the fallback file, as written by `_save_to_fallback_file`:
the original message plus fallback metadata.  The constant `queue_name` /
`routing_key` strings copied from the transmitter's configuration are
omitted; `fallback_reason` is always `"rabbitmq_unavailable"`. -/
structure Envelope where
  original_message : ComposedMsg
  fallback_timestamp : Nat
  fallback_reason : String
  deriving DecidableEq, Repr

/-- Build the fallback envelope for a message. -/
def mkEnvelope (m : ComposedMsg) (nowMillis : Nat) : Envelope :=
  { original_message := m
    fallback_timestamp := nowMillis
    fallback_reason := "rabbitmq_unavailable" }

/-- The observable state of an `EnhancedMessageTransmitter`:

* `connected` — the `self.connected` boolean flag;
* `connectionLive` — whether `self.connection` is a non-`None`, open
  connection object (set by `_connect_to_rabbitmq`, tested by
  `is_connected`);
* `fallbackFile` — contents of the fallback file, `none` when the file
  does not exist;
* `published` — the messages delivered to the broker so far, in order;
* `callbackLog` — the arguments of the `status_callback` invocations so
  far, in order (the callback is taken to be installed). -/
structure EtxState where
  connected : Bool
  connectionLive : Bool
  fallbackFile : Option (List Envelope)
  published : List ComposedMsg
  callbackLog : List Bool
  deriving DecidableEq, Repr

/-- A fresh transmitter state before any connection attempt. -/
def initEtx : EtxState :=
  { connected := false
    connectionLive := false
    fallbackFile := none
    published := []
    callbackLog := [] }

/-- `is_connected` (lines 186–203): returns `false` and downgrades
`self.connected` when the connection object is missing/closed or when the
heartbeat probe (`process_data_events`) raises; returns `true` without
touching `self.connected` otherwise.  `healthy` is the outcome of the
probe. -/
def isConnectedCheck (st : EtxState) (healthy : Bool) : Bool × EtxState :=
  if !st.connectionLive then
    (false, { st with connected := false })
  else if healthy then
    (true, st)
  else
    (false, { st with connected := false })

/-- `_publish_to_rabbitmq` (lines 205–243): returns `false` when
`is_connected` fails; otherwise attempts `basic_publish` — on success
returns `true`, on an exception (`sendOk = false`) sets
`self.connected = False`, invokes `status_callback(False)` and returns
`false`.  It never raises. -/
def publishToRabbitmq (st : EtxState) (m : ComposedMsg) (healthy sendOk : Bool) :
    Bool × EtxState :=
  let c := isConnectedCheck st healthy
  if !c.1 then
    (false, c.2)
  else if sendOk then
    (true, { c.2 with published := c.2.published ++ [m] })
  else
    (false, { c.2 with connected := false, callbackLog := c.2.callbackLog ++ [false] })

/-- `_save_to_fallback_file` (lines 245–286): loads the existing list
(missing file counts as `[]`), appends the new envelope and writes the
list back.  `writeOk = false` models an exception in the file handling,
which is caught and reported as `false` with the file unchanged. -/
def saveToFallbackFile (st : EtxState) (m : ComposedMsg) (nowMillis : Nat)
    (writeOk : Bool) : Bool × EtxState :=
  if writeOk then
    (true, { st with
      fallbackFile := some ((st.fallbackFile.getD []) ++ [mkEnvelope m nowMillis]) })
  else
    (false, st)

/-- `get_fallback_message_count` (lines 329–343): length of the fallback
file's list, `0` when the file does not exist. -/
def getFallbackMessageCount (st : EtxState) : Nat :=
  (st.fallbackFile.getD []).length

/-- The loop of `_process_fallback_messages` (lines 302–311): publish each
envelope's `original_message` in file order via `_publish_to_rabbitmq`,
stop at the first failure.  `oracle n` gives the (health, send) outcome of
the `n`-th publish attempt; the recursion shifts the oracle instead of
carrying an index.  Returns `processed_count` and the resulting state. -/
def replayLoop (st : EtxState) (envs : List Envelope) (oracle : Nat → Bool × Bool) :
    Nat × EtxState :=
  match envs with
  | [] => (0, st)
  | e :: rest =>
    let o := oracle 0
    let r := publishToRabbitmq st e.original_message o.1 o.2
    if r.1 then
      let r2 := replayLoop r.2 rest (fun n => oracle (n + 1))
      (r2.1 + 1, r2.2)
    else
      (0, r.2)

/-- `_process_fallback_messages` (lines 288–327): no-op when the file does
not exist or holds an empty list; otherwise replays envelopes in order via
`replayLoop`, then — only when at least one was processed — rewrites the
file with the unprocessed tail, deleting it when the tail is empty. -/
def processFallbackMessages (st : EtxState) (oracle : Nat → Bool × Bool) : EtxState :=
  match st.fallbackFile with
  | none => st
  | some envs =>
    if envs.isEmpty then st
    else
      let r := replayLoop st envs oracle
      if r.1 > 0 then
        let remaining := envs.drop r.1
        if remaining.isEmpty then { r.2 with fallbackFile := none }
        else { r.2 with fallbackFile := some remaining }
      else r.2

/-- `_connect_to_rabbitmq` (lines 105–166): on success the connection
object is (re)established; if the flag was `false` the state switches to
connected, `status_callback(True)` fires and the fallback messages are
processed (with `oracle` giving the replay outcomes).  On failure the
connection object is cleared; `status_callback(False)` fires only when the
flag was `true`. -/
def connectToRabbitmq (st : EtxState) (ok : Bool) (oracle : Nat → Bool × Bool) :
    EtxState :=
  if ok then
    let st1 := { st with connectionLive := true }
    if !st.connected then
      processFallbackMessages
        { st1 with connected := true, callbackLog := st1.callbackLog ++ [true] }
        oracle
    else st1
  else
    if st.connected then
      { st with connectionLive := false, connected := false,
                callbackLog := st.callbackLog ++ [false] }
    else
      { st with connectionLive := false }

/-- `transmit_message` (lines 345–403): validates the input (`ValueError`
for a non-dict or an empty dict), composes the message, tries RabbitMQ
when `is_connected()` holds, falls back to the file on failure, raises
`RuntimeError` when both fail; on success returns the composed message
with its `_transmission_method` string and `_fallback_queue_size`.
`h0` is the transmit-level `is_connected()` probe outcome, `h1`/`sendOk`
the probe and send outcomes inside `_publish_to_rabbitmq`, `fbOk` the file
write outcome. -/
def transmitMessage (st : EtxState) (v : PyValue) (nowMillis : Nat)
    (h0 h1 sendOk fbOk : Bool) :
    Except TxError (ComposedMsg × String × Nat) × EtxState :=
  match v with
  | .dict d =>
    if d.isEmpty then (.error .valueError, st)
    else
      let composed := composeMessage d nowMillis
      let c := isConnectedCheck st h0
      let pub :=
        if c.1 then
          let r := publishToRabbitmq c.2 composed h1 sendOk
          (r.1, (if r.1 then "rabbitmq" else "fallback_file", r.2))
        else (false, ("fallback_file", c.2))
      if pub.1 then
        (.ok (composed, pub.2.1, getFallbackMessageCount pub.2.2), pub.2.2)
      else
        let sv := saveToFallbackFile pub.2.2 composed nowMillis fbOk
        if sv.1 then
          (.ok (composed, "fallback_file", getFallbackMessageCount sv.2), sv.2)
        else
          (.error .runtimeError, sv.2)
  | _ => (.error .valueError, st)

end Etx

namespace Etx

/-- A sequence of `transmit_message` calls, each given as its payload dict
and its wall-clock millisecond stamp.  All nondeterministic outcomes are
taken benign (`true`): when the connection object is down
(`connectionLive = false`) the publish path still fails by itself, which
is exactly the broker-unreachable scenario. -/
def transmitAll (st : EtxState) (calls : List (Payload × Nat)) : EtxState :=
  match calls with
  | [] => st
  | c :: rest =>
    transmitAll (transmitMessage st (.dict c.1) c.2 true true true true).2 rest

end Etx

namespace Etx

/-- An externally triggered operation on the transmitter, with the
outcomes of the involved nondeterministic steps: a `_connect_to_rabbitmq`
attempt (as issued by the monitor thread or `__init__`), a
`transmit_message`-driven `_publish_to_rabbitmq` call, or a bare
`is_connected` check.  Replay attempts during a successful reconnect are
taken to succeed (they only matter when the fallback file is nonempty). -/
inductive EtxEvent where
  | connectEv (ok : Bool)
  | publishEv (m : ComposedMsg) (healthy sendOk : Bool)
  | checkEv (healthy : Bool)

/-- Apply one event to the transmitter state. -/
def stepEvent (st : EtxState) : EtxEvent → EtxState
  | .connectEv ok => connectToRabbitmq st ok (fun _ => (true, true))
  | .publishEv m h s => (publishToRabbitmq st m h s).2
  | .checkEv h => (isConnectedCheck st h).2

/-- Apply a sequence of events to the transmitter state. -/
def runEvents (st : EtxState) (evs : List EtxEvent) : EtxState :=
  evs.foldl stepEvent st

end Etx

namespace Rfid

/-- The data dict of a configured item, as key/value pairs; Python dict
truthiness (`if not item_data`) is emptiness of the list. -/
abbrev ItemData := List (String × String)

/-- `ItemType` of `rfid_rabbitmq.py` (lines 32–35). -/
inductive ItemType where
  | object
  | location
  deriving DecidableEq, Repr

/-- `ScannedItem` of `rfid_rabbitmq.py` (lines 38–43). -/
structure ScannedItem where
  item_id : String
  item_type : ItemType
  data : ItemData
  deriving DecidableEq, Repr

/-- The `objects` / `locations` sections of the JSON configuration read by
`ConfigManager`, as association lists from item id to item data. -/
structure Config where
  objects : List (String × ItemData)
  locations : List (String × ItemData)
  deriving DecidableEq, Repr

/-- `ConfigManager.get_item_data` (lines 236–248): dictionary lookup in
the section selected by the item type. -/
def getItemData (cfg : Config) (itemId : String) (ty : ItemType) : Option ItemData :=
  match ty with
  | .object => cfg.objects.lookup itemId
  | .location => cfg.locations.lookup itemId

/-- Python truthiness of `get_item_data`'s result: `None` and the empty
dict are both falsy. -/
def truthyData : Option ItemData → Bool
  | none => false
  | some d => !d.isEmpty

/-- `_determine_item_type` (lines 283–301): object section first, then
location section, `None` otherwise. -/
def determineItemType (cfg : Config) (itemId : String) : Option ItemType :=
  if truthyData (getItemData cfg itemId .object) then some .object
  else if truthyData (getItemData cfg itemId .location) then some .location
  else none

/-- `_create_scanned_item` (lines 303–328): classify the id, re-read its
data, reject falsy data, build the `ScannedItem`.  The `tag_id` read from
the tag is not used in the item. -/
def createScannedItem (cfg : Config) (itemId : String) : Option ScannedItem :=
  match determineItemType cfg itemId with
  | none => none
  | some ty =>
    match getItemData cfg itemId ty with
    | none => none
    | some d =>
      if d.isEmpty then none
      else some { item_id := itemId, item_type := ty, data := d }

/-- The pairing state of `RFIDRabbitMQScanner`: the `object_item` and
`location_item` slots and the (never-appended) `scanned_items` list
(lines 277–279). -/
structure ScannerState where
  object_item : Option ScannedItem
  location_item : Option ScannedItem
  scanned_items : List ScannedItem
  deriving DecidableEq, Repr

/-- The scanner state right after `__init__`. -/
def initScanner : ScannerState :=
  { object_item := none, location_item := none, scanned_items := [] }

/-- `_reset_scan_state` (lines 362–366). -/
def resetScanState : ScannerState := initScanner

/-- `_process_scanned_item` (lines 368–406): store the item in the slot of
its type (replacing any previous scan of that type) and report whether
both slots are now occupied (`ready to send`). -/
def processScannedItem (st : ScannerState) (it : ScannedItem) : ScannerState × Bool :=
  let st1 :=
    match it.item_type with
    | .object => { st with object_item := some it }
    | .location => { st with location_item := some it }
  (st1, st1.object_item.isSome && st1.location_item.isSome)

/-- `run_once` (lines 408–457).  `tagData` is the outcome of
`read_tag()` (`none` = read failure); `deliverOk` tells whether
`transmit_message` returns normally (`false` = it raises, which for the
`MessageTransmitter` of `rabbitmq_tx.py` happens exactly when the publish
fails).  Returns the new state, the boolean returned by `run_once`, and
the composed `(object, location)` message when `_create_message` was
reached (i.e. a delivery was attempted), `none` otherwise.  On a raised
delivery error the `except` branch returns `False` without calling
`_reset_scan_state`. -/
def runOnce (cfg : Config) (st : ScannerState) (tagData : Option (Nat × String))
    (deliverOk : Bool) :
    ScannerState × Bool × Option (ScannedItem × ScannedItem) :=
  match tagData with
  | none => (st, false, none)
  | some (_, itemId) =>
    match createScannedItem cfg itemId with
    | none => (st, false, none)
    | some it =>
      let p := processScannedItem st it
      if p.2 then
        match p.1.object_item, p.1.location_item with
        | some o, some l =>
          if deliverOk then (resetScanState, true, some (o, l))
          else (p.1, false, some (o, l))
        | _, _ => (p.1, false, none)
      else (p.1, false, none)

/-- One step of the pairing state machine on an already classified scan:
`_process_scanned_item` followed by the ready branch of `run_once`.
Returns the new state and whether a message was composed at this step
(`_create_message` reached). -/
def pairStep (st : ScannerState) (it : ScannedItem) (deliverOk : Bool) :
    ScannerState × Bool :=
  let p := processScannedItem st it
  if p.2 then
    if deliverOk then (resetScanState, true) else (p.1, true)
  else (p.1, false)

/-- Run the pairing machine over a sequence of classified scans, each with
its delivery outcome; collect the per-step composition flags. -/
def runPairFlags (st : ScannerState) (scans : List (ScannedItem × Bool)) :
    ScannerState × List Bool :=
  match scans with
  | [] => (st, [])
  | (it, ok) :: rest =>
    let s := pairStep st it ok
    let r := runPairFlags s.1 rest
    (r.1, s.2 :: r.2)

/-- Whether a scan kind is the Object kind. -/
def isObjectKind : ItemType → Bool
  | .object => true
  | .location => false

/-- Whether a scan kind is the Location kind. -/
def isLocationKind : ItemType → Bool
  | .object => false
  | .location => true

/-- The specification's composition criterion, stated over the scan kinds
alone: a Message is composed at a scan exactly when the scans since the
last composition (including the current one) contain both an Object and a
Location; a composition starts a fresh segment.  `acc` is the segment
scanned since the last composition. -/
def specStep (acc : List ItemType) (k : ItemType) : List ItemType × Bool :=
  let acc' := acc ++ [k]
  if (acc'.any isObjectKind) && (acc'.any isLocationKind) then
    ([], true)
  else (acc', false)

/-- Fold of `specStep` over the scan kinds, collecting the per-step
composition flags demanded by the specification. -/
def specFlags (acc : List ItemType) (ks : List ItemType) :
    List ItemType × List Bool :=
  match ks with
  | [] => (acc, [])
  | k :: rest =>
    let s := specStep acc k
    let r := specFlags s.1 rest
    (r.1, s.2 :: r.2)

end Rfid

namespace Etx

/-- The inputs `transmit_message` rejects with `ValueError`: anything that
is not a dict, and the empty dict. -/
def isInvalidInput : PyValue → Bool
  | .dict d => d.isEmpty
  | _ => true

/-- A transmitter state with an established, healthy connection and one
prior `status_callback(True)` notification (the state right after a
successful initial `_connect_to_rabbitmq`). -/
def sampleConnected : EtxState :=
  { connected := true
    connectionLive := true
    fallbackFile := none
    published := []
    callbackLog := [true] }

/-- A queued fallback envelope used in witnesses. -/
def sampleEnv1 : Envelope := mkEnvelope (composeMessage [("a", "1")] 1) 1

/-- A second queued fallback envelope used in witnesses. -/
def sampleEnv2 : Envelope := mkEnvelope (composeMessage [("b", "2")] 2) 2

/-- A transmitter state holding two queued fallback envelopes on a live
connection (as right after a reconnect, just before replay). -/
def sampleFallbackSt : EtxState :=
  { connected := false
    connectionLive := true
    fallbackFile := some [sampleEnv1, sampleEnv2]
    published := []
    callbackLog := [] }

/-- A replay-outcome oracle whose first attempt succeeds and whose later
attempts fail. -/
def failAfterFirst : Nat → Bool × Bool :=
  fun n => if n = 0 then (true, true) else (true, false)

end Etx

namespace Rfid

/-- A small configuration in the shape of the sample config created by
`ConfigManager._create_sample_config`. -/
def sampleConfig : Config :=
  { objects := [("obj001", [("name", "Widget A")]), ("obj002", [("name", "Tool B")])]
    locations := [("loc001", [("name", "Assembly Station 1")])] }

/-- The scanned item for `obj001` of `sampleConfig`. -/
def itemA : ScannedItem :=
  { item_id := "obj001", item_type := .object, data := [("name", "Widget A")] }

/-- The scanned item for `obj002` of `sampleConfig`. -/
def itemB : ScannedItem :=
  { item_id := "obj002", item_type := .object, data := [("name", "Tool B")] }

/-- The scanned item for `loc001` of `sampleConfig`. -/
def itemL : ScannedItem :=
  { item_id := "loc001", item_type := .location, data := [("name", "Assembly Station 1")] }

end Rfid

/-! ## Theorems -/

/-- C10: a `transmit_message` argument that is not a dictionary, or is an
empty dictionary, is rejected with `ValueError` by the validation at the
top of the function, before any broker publish or fallback-file write, and
the transmitter state (connection flag, fallback file, published and
callback histories) is returned unchanged. -/
theorem c10_invalid_input_raises_valueerror
    (st : Etx.EtxState) (v : Etx.PyValue) (nowMillis : Nat) (h0 h1 s f : Bool)
    (h : Etx.isInvalidInput v = true) :
    Etx.transmitMessage st v nowMillis h0 h1 s f = (.error .valueError, st) := by
  cases v with
  | dict d =>
    simp only [Etx.isInvalidInput] at h
    simp [Etx.transmitMessage, h]
  | str s => rfl
  | int n => rfl
  | listv l => rfl
  | noneV => rfl

/-- Witness for C10 at the concrete non-dict input `"oops"` and the state
`initEtx`. -/
theorem c10_invalid_input_raises_valueerror_witness :
    Etx.transmitMessage Etx.initEtx (.str "oops") 0 true true true true
      = (.error .valueError, Etx.initEtx) :=
  c10_invalid_input_raises_valueerror Etx.initEtx (.str "oops") 0 true true true true rfl

/-- C3 (amended): for every nonempty dict, `transmit_message` first tries
the direct broker publish and appends to the fallback file exactly when
that publish path fails; it raises `RuntimeError` iff both the publish and
the fallback write fail; otherwise it returns the composed message with
`_transmission_method = "rabbitmq"` (the code's literal name for the
direct-broker method — not `"broker"`) when delivered directly, and
`"fallback_file"` when stored. -/
theorem c3_transmit_publish_then_fallback
    (st : Etx.EtxState) (d : Etx.Payload) (nowMillis : Nat) (h0 h1 s f : Bool)
    (hd : d.isEmpty = false) :
    ((st.connectionLive && h0 && h1 && s) = true →
      Etx.transmitMessage st (.dict d) nowMillis h0 h1 s f =
        (.ok (Etx.composeMessage d nowMillis, "rabbitmq", Etx.getFallbackMessageCount st),
         { st with published := st.published ++ [Etx.composeMessage d nowMillis] }))
    ∧ ((st.connectionLive && h0 && h1 && s) = false → f = true →
      (Etx.transmitMessage st (.dict d) nowMillis h0 h1 s f).1 =
        .ok (Etx.composeMessage d nowMillis, "fallback_file",
             (st.fallbackFile.getD []).length + 1)
      ∧ (Etx.transmitMessage st (.dict d) nowMillis h0 h1 s f).2.fallbackFile =
        some ((st.fallbackFile.getD []) ++
              [Etx.mkEnvelope (Etx.composeMessage d nowMillis) nowMillis])
      ∧ (Etx.transmitMessage st (.dict d) nowMillis h0 h1 s f).2.published = st.published)
    ∧ ((st.connectionLive && h0 && h1 && s) = false → f = false →
      (Etx.transmitMessage st (.dict d) nowMillis h0 h1 s f).1 = .error .runtimeError
      ∧ (Etx.transmitMessage st (.dict d) nowMillis h0 h1 s f).2.fallbackFile =
        st.fallbackFile
      ∧ (Etx.transmitMessage st (.dict d) nowMillis h0 h1 s f).2.published = st.published) := by
  obtain ⟨cn, live, fb, pb, lg⟩ := st
  cases live <;> cases h0 <;> cases h1 <;> cases s <;> cases f <;>
    simp [Etx.transmitMessage, Etx.isConnectedCheck, Etx.publishToRabbitmq,
          Etx.saveToFallbackFile, Etx.getFallbackMessageCount, hd]

/-- Witness for C3's amended theorem at a healthy connected state and the
one-field dict. -/
theorem c3_transmit_publish_then_fallback_witness :
    Etx.transmitMessage Etx.sampleConnected (.dict [("k", "v")]) 5 true true true true =
      (.ok (Etx.composeMessage [("k", "v")] 5, "rabbitmq",
            Etx.getFallbackMessageCount Etx.sampleConnected),
       { Etx.sampleConnected with
         published := Etx.sampleConnected.published ++ [Etx.composeMessage [("k", "v")] 5] }) :=
  (c3_transmit_publish_then_fallback Etx.sampleConnected [("k", "v")] 5
      true true true true rfl).1 rfl

/-- Counterexample to C3 as stated: a directly delivered message carries
the transmission-method string `"rabbitmq"`, not `"broker"`. -/
theorem c3_counterexample_method_string :
    (Etx.transmitMessage Etx.sampleConnected (.dict [("k", "v")]) 5 true true true true).1 =
      .ok (Etx.composeMessage [("k", "v")] 5, "rabbitmq", 0)
    ∧ ("rabbitmq" : String) ≠ "broker" := by
  exact ⟨rfl, by decide⟩

/-- C6: `_publish_to_rabbitmq` never raises — it is a total function into
a boolean: a `true` result requires a live connection, a passing health
probe and a successful send; when the send attempt raises (`sendOk =
false` after the connection checks passed) the connection flag is
downgraded to disconnected, `status_callback(False)` fires and `false` is
returned; and every `false` result leaves the flag disconnected. -/
theorem c6_publish_never_raises
    (st : Etx.EtxState) (m : Etx.ComposedMsg) (healthy s : Bool) :
    ((Etx.publishToRabbitmq st m healthy s).1 = true →
      st.connectionLive = true ∧ healthy = true ∧ s = true)
    ∧ (st.connectionLive = true → healthy = true →
      Etx.publishToRabbitmq st m healthy false =
        (false, { st with
                  connected := false,
                  callbackLog := st.callbackLog ++ [false] }))
    ∧ ((Etx.publishToRabbitmq st m healthy s).1 = false →
      (Etx.publishToRabbitmq st m healthy s).2.connected = false) := by
  obtain ⟨cn, live, fb, pb, lg⟩ := st
  cases live <;> cases healthy <;> cases s <;>
    simp [Etx.publishToRabbitmq, Etx.isConnectedCheck]

/-- Witness for C6: a raising send attempt on a live, healthy connection
returns `false` and downgrades the state. -/
theorem c6_publish_never_raises_witness :
    Etx.publishToRabbitmq Etx.sampleConnected (Etx.composeMessage [("k", "v")] 0) true false =
      (false, { Etx.sampleConnected with
                connected := false,
                callbackLog := Etx.sampleConnected.callbackLog ++ [false] }) :=
  (c6_publish_never_raises Etx.sampleConnected (Etx.composeMessage [("k", "v")] 0)
      true false).2.1 rfl rfl

/-- C8 (amended): every message returned by `transmit_message` carries the
message id `"msg_" ++ <unix millis>`, with no per-process counter, so two
messages composed in the same millisecond carry the same id. -/
theorem c8_message_id_form
    (st : Etx.EtxState) (d : Etx.Payload) (nowMillis : Nat) (h0 h1 s f : Bool)
    (m : Etx.ComposedMsg) (meth : String) (q : Nat)
    (h : (Etx.transmitMessage st (.dict d) nowMillis h0 h1 s f).1 = .ok (m, meth, q)) :
    m = Etx.composeMessage d nowMillis
    ∧ m.messageId = "msg_" ++ Nat.repr nowMillis := by
  have hm : m = Etx.composeMessage d nowMillis := by
    obtain ⟨cn, live, fb, pb, lg⟩ := st
    cases hd : d.isEmpty <;>
      cases live <;> cases h0 <;> cases h1 <;> cases s <;> cases f <;>
        simp_all [Etx.transmitMessage, Etx.isConnectedCheck, Etx.publishToRabbitmq,
                  Etx.saveToFallbackFile, Etx.getFallbackMessageCount,
                  Etx.composeMessage, Etx.mkMessageId]
  subst hm
  exact ⟨rfl, rfl⟩

/-- Witness for C8's amended theorem at a concrete delivered message. -/
theorem c8_message_id_form_witness :
    Etx.composeMessage [("a", "1")] 1000 = Etx.composeMessage [("a", "1")] 1000
    ∧ (Etx.composeMessage [("a", "1")] 1000).messageId = "msg_" ++ Nat.repr 1000 :=
  c8_message_id_form Etx.sampleConnected [("a", "1")] 1000 true true true true
    (Etx.composeMessage [("a", "1")] 1000) "rabbitmq" 0 rfl

/-- Counterexample to C8 as stated: two distinct messages transmitted by
the same process in the same millisecond both get the id `"msg_1000"` —
there is no `"_" ++ counter` component and the ids are not distinct. -/
theorem c8_counterexample_same_millis_collision :
    (Etx.transmitMessage Etx.sampleConnected (.dict [("a", "1")]) 1000 true true true true).1 =
      .ok (Etx.composeMessage [("a", "1")] 1000, "rabbitmq", 0)
    ∧ (Etx.transmitMessage
        (Etx.transmitMessage Etx.sampleConnected (.dict [("a", "1")]) 1000 true true true true).2
        (.dict [("b", "2")]) 1000 true true true true).1 =
      .ok (Etx.composeMessage [("b", "2")] 1000, "rabbitmq", 0)
    ∧ (Etx.composeMessage [("a", "1")] 1000).messageId
        = (Etx.composeMessage [("b", "2")] 1000).messageId
    ∧ (Etx.composeMessage [("a", "1")] 1000).messageId = "msg_1000"
    ∧ ([("a", "1")] : Etx.Payload) ≠ [("b", "2")] := by
  refine ⟨rfl, rfl, rfl, by decide, by decide⟩

/-- A publish on a live connection with a passing probe and a successful
send appends the message to the broker and changes nothing else. -/
theorem publishToRabbitmq_ok (st : Etx.EtxState) (m : Etx.ComposedMsg)
    (hlive : st.connectionLive = true) :
    Etx.publishToRabbitmq st m true true =
      (true, { st with published := st.published ++ [m] }) := by
  simp [Etx.publishToRabbitmq, Etx.isConnectedCheck, hlive]

/-- A failing publish (probe or send fails) publishes nothing and leaves
the fallback file, the published history and the connection object
untouched; only `connected` and possibly `callbackLog` change. -/
theorem publishToRabbitmq_fail (st : Etx.EtxState) (m : Etx.ComposedMsg) (a b : Bool)
    (hab : (a && b) = false) :
    (Etx.publishToRabbitmq st m a b).1 = false
    ∧ (Etx.publishToRabbitmq st m a b).2.published = st.published
    ∧ (Etx.publishToRabbitmq st m a b).2.fallbackFile = st.fallbackFile
    ∧ (Etx.publishToRabbitmq st m a b).2.connectionLive = st.connectionLive := by
  cases hl : st.connectionLive <;> cases a <;> cases b <;>
    simp_all [Etx.publishToRabbitmq, Etx.isConnectedCheck]

/-- `replayLoop` under an oracle whose first `k` attempts succeed and whose
`k`-th attempt (when there is one) fails processes exactly the first `k`
envelopes: it publishes their original messages in order and leaves the
fallback file and the connection object untouched. -/
theorem replayLoop_first_failure
    (envs : List Etx.Envelope) (k : Nat) (st : Etx.EtxState) (oracle : Nat → Bool × Bool)
    (hlive : st.connectionLive = true)
    (hk : k ≤ envs.length)
    (hsucc : ∀ i, i < k → oracle i = (true, true))
    (hfail : k < envs.length → ((oracle k).1 && (oracle k).2) = false) :
    (Etx.replayLoop st envs oracle).1 = k
    ∧ (Etx.replayLoop st envs oracle).2.published =
        st.published ++ (envs.take k).map (fun e => e.original_message)
    ∧ (Etx.replayLoop st envs oracle).2.fallbackFile = st.fallbackFile := by
  induction envs generalizing k st oracle with
  | nil =>
    have hk0 : k = 0 := Nat.le_zero.mp hk
    subst hk0
    simp [Etx.replayLoop]
  | cons e rest ih =>
    cases k with
    | zero =>
      have hf : ((oracle 0).1 && (oracle 0).2) = false := by
        exact hfail (by simp)
      have hpf := publishToRabbitmq_fail st e.original_message (oracle 0).1 (oracle 0).2 hf
      simp only [Etx.replayLoop, hpf.1, Bool.false_eq_true, if_false]
      simp [hpf.2.1, hpf.2.2.1]
    | succ k' =>
      have h0 : oracle 0 = (true, true) := hsucc 0 (Nat.succ_pos k')
      have hpub := publishToRabbitmq_ok st e.original_message hlive
      have ihr := ih k' { st with published := st.published ++ [e.original_message] }
        (fun n => oracle (n + 1)) hlive (Nat.succ_le_succ_iff.mp hk)
        (fun i hi => hsucc (i + 1) (Nat.succ_lt_succ hi))
        (fun hlt => hfail (Nat.succ_lt_succ hlt))
      simp only [Etx.replayLoop, h0, hpub, if_true]
      refine ⟨by rw [ihr.1], ?_, ihr.2.2⟩
      rw [ihr.2.1]
      simp [List.append_assoc]

/-- `_process_fallback_messages` on a nonempty fallback file whose replay
first fails at position `k` (with `k = N` meaning every replay succeeded):
the file afterwards holds exactly the envelopes `k..N-1` in their original
order (deleted when `k = N`), and the original messages of envelopes
`0..k-1` were published in order. -/
theorem processFallbackMessages_spec
    (st : Etx.EtxState) (envs : List Etx.Envelope) (k : Nat) (oracle : Nat → Bool × Bool)
    (hfile : st.fallbackFile = some envs)
    (hlive : st.connectionLive = true)
    (hne : envs ≠ [])
    (hk : k ≤ envs.length)
    (hsucc : ∀ i, i < k → oracle i = (true, true))
    (hfail : k < envs.length → ((oracle k).1 && (oracle k).2) = false) :
    (Etx.processFallbackMessages st oracle).fallbackFile =
      (if k = envs.length then none else some (envs.drop k))
    ∧ (Etx.processFallbackMessages st oracle).published =
      st.published ++ (envs.take k).map (fun e => e.original_message) := by
  have hrep := replayLoop_first_failure envs k st oracle hlive hk hsucc hfail
  have hlen : 0 < envs.length := List.length_pos.mpr hne
  simp only [Etx.processFallbackMessages, hfile, List.isEmpty_eq_true, hne, if_false]
  cases hk0 : k with
  | zero =>
    subst hk0
    have hkne : ¬(0 = envs.length) := by omega
    simp [hrep.1, hrep.2.1, hrep.2.2, hfile, hkne]
  | succ k' =>
    subst hk0
    have hpos : (Etx.replayLoop st envs oracle).1 > 0 := by rw [hrep.1]; omega
    by_cases hkl : k' + 1 = envs.length
    · have hdrop : (envs.drop (k' + 1)).isEmpty = true := by
        rw [List.isEmpty_eq_true, List.drop_eq_nil_iff]
        omega
      simp [hrep.1, hpos, hdrop, hrep.2.1, hkl, hlen]
    · have hlpos : 0 < (envs.drop (k' + 1)).length := by
        rw [List.length_drop]
        omega
      have hdrop : (envs.drop (k' + 1)).isEmpty = false := by
        rcases hD : envs.drop (k' + 1) with _ | ⟨x, xs⟩
        · rw [hD] at hlpos
          simp at hlpos
        · rfl
      have hnle : ¬(envs.length ≤ k' + 1) := by omega
      simp [hrep.1, hpos, hrep.2.1, hnle, hkl]

/-- The pairing machine composes at a step exactly when the specification's
since-the-last-composition criterion does, provided every delivery attempt
succeeds: the slot occupancy of the machine state mirrors the kinds present
in the segment scanned since the last composition. -/
theorem runPairFlags_eq_specFlags_aux
    (scans : List Rfid.ScannedItem) (st : Rfid.ScannerState) (acc : List Rfid.ItemType)
    (hobj : st.object_item.isSome = acc.any Rfid.isObjectKind)
    (hloc : st.location_item.isSome = acc.any Rfid.isLocationKind) :
    (Rfid.runPairFlags st (scans.map (fun it => (it, true)))).2 =
      (Rfid.specFlags acc (scans.map (fun it => it.item_type))).2 := by
  induction scans generalizing st acc with
  | nil => rfl
  | cons it rest ih =>
    simp only [List.map_cons, Rfid.runPairFlags, Rfid.specFlags]
    cases hty : it.item_type with
    | object =>
      cases hcl : st.location_item.isSome with
      | true =>
        have hspec : Rfid.specStep acc .object = ([], true) := by
          simp [Rfid.specStep, List.any_append, Rfid.isObjectKind, Rfid.isLocationKind,
                ← hloc, hcl]
        have hmach : Rfid.pairStep st it true = (Rfid.resetScanState, true) := by
          simp [Rfid.pairStep, Rfid.processScannedItem, hty, hcl]
        rw [hspec, hmach]
        simp only []
        exact congrArg (List.cons true) (ih Rfid.resetScanState [] rfl rfl)
      | false =>
        have hspec : Rfid.specStep acc .object = (acc ++ [.object], false) := by
          simp [Rfid.specStep, List.any_append, Rfid.isObjectKind, Rfid.isLocationKind,
                ← hloc, hcl]
        have hmach : Rfid.pairStep st it true =
            ({ st with object_item := some it }, false) := by
          simp [Rfid.pairStep, Rfid.processScannedItem, hty, hcl]
        rw [hspec, hmach]
        simp only []
        refine congrArg (List.cons false) (ih _ _ ?_ ?_)
        · simp [List.any_append, Rfid.isObjectKind]
        · simp [List.any_append, Rfid.isLocationKind, ← hloc]
    | location =>
      cases hco : st.object_item.isSome with
      | true =>
        have hspec : Rfid.specStep acc .location = ([], true) := by
          simp [Rfid.specStep, List.any_append, Rfid.isObjectKind, Rfid.isLocationKind,
                ← hobj, hco]
        have hmach : Rfid.pairStep st it true = (Rfid.resetScanState, true) := by
          simp [Rfid.pairStep, Rfid.processScannedItem, hty, hco]
        rw [hspec, hmach]
        simp only []
        exact congrArg (List.cons true) (ih Rfid.resetScanState [] rfl rfl)
      | false =>
        have hspec : Rfid.specStep acc .location = (acc ++ [.location], false) := by
          simp [Rfid.specStep, List.any_append, Rfid.isObjectKind, Rfid.isLocationKind,
                ← hobj, hco]
        have hmach : Rfid.pairStep st it true =
            ({ st with location_item := some it }, false) := by
          simp [Rfid.pairStep, Rfid.processScannedItem, hty, hco]
        rw [hspec, hmach]
        simp only []
        refine congrArg (List.cons false) (ih _ _ ?_ ?_)
        · simp [List.any_append, Rfid.isObjectKind, ← hobj]
        · simp [List.any_append, Rfid.isLocationKind]

/-- C1 (amended): over the pairing state machine with every delivery
attempt succeeding (so each composition clears both slots, as `run_once`'s
success path does), a Message is composed at a scan if and only if both an
Object and a Location have been scanned since the last composition; and
scanning `Object(A)` then `Object(B)` from an empty state leaves exactly
`Object(B)` in the object slot and the location slot empty, with no
composition.  (After a raised delivery error the slots are retained, and
the iff can fail — see the counterexample.) -/
theorem c1_pairing_correct_when_deliveries_succeed :
    (∀ scans : List Rfid.ScannedItem,
      (Rfid.runPairFlags Rfid.initScanner (scans.map (fun it => (it, true)))).2 =
        (Rfid.specFlags [] (scans.map (fun it => it.item_type))).2)
    ∧ (∀ a b : Rfid.ScannedItem,
        a.item_type = .object → b.item_type = .object →
        Rfid.runPairFlags Rfid.initScanner [(a, true), (b, true)] =
          ({ object_item := some b, location_item := none, scanned_items := [] },
           [false, false])) := by
  constructor
  · intro scans
    exact runPairFlags_eq_specFlags_aux scans Rfid.initScanner [] rfl rfl
  · intro a b ha hb
    simp [Rfid.runPairFlags, Rfid.pairStep, Rfid.processScannedItem, ha, hb,
          Rfid.initScanner]

/-- Witness for C1's amended theorem: scanning the objects `obj001` then
`obj002` leaves exactly `obj002` pending and composes nothing. -/
theorem c1_pairing_correct_witness :
    Rfid.runPairFlags Rfid.initScanner [(Rfid.itemA, true), (Rfid.itemB, true)] =
      ({ object_item := some Rfid.itemB, location_item := none, scanned_items := [] },
       [false, false]) :=
  c1_pairing_correct_when_deliveries_succeed.2 Rfid.itemA Rfid.itemB rfl rfl

/-- Counterexample to C1 as stated: in the trace `Object(obj001)`,
`Location(loc001)` (its delivery raises), `Object(obj002)` (delivery
succeeds), the machine composes at steps 2 and 3, but the scans since the
last composition before step 3 contain only an Object — the specification
criterion allows a composition only at step 2. -/
theorem c1_counterexample_failed_delivery :
    (Rfid.runPairFlags Rfid.initScanner
        [(Rfid.itemA, true), (Rfid.itemL, false), (Rfid.itemB, true)]).2 =
      [false, true, true]
    ∧ (Rfid.specFlags []
        [Rfid.ItemType.object, Rfid.ItemType.location, Rfid.ItemType.object]).2 =
      [false, true, false] :=
  ⟨rfl, rfl⟩

/-- C9: a scanned identifier present in neither the object nor the
location catalog yields `None` from `_create_scanned_item`; `run_once`
then returns `False` with the pairing state unchanged, no Message composed
and no transmission attempted. -/
theorem c9_unknown_id_leaves_state_unchanged
    (cfg : Rfid.Config) (st : Rfid.ScannerState) (tagId : Nat) (itemId : String)
    (deliverOk : Bool)
    (hobj : cfg.objects.lookup itemId = none)
    (hloc : cfg.locations.lookup itemId = none) :
    Rfid.runOnce cfg st (some (tagId, itemId)) deliverOk = (st, false, none) := by
  simp [Rfid.runOnce, Rfid.createScannedItem, Rfid.determineItemType,
        Rfid.getItemData, Rfid.truthyData, hobj, hloc]

/-- Witness for C9: scanning the unknown id `"ZZZZ"` against the sample
configuration from a state with a pending object leaves that state
intact. -/
theorem c9_unknown_id_witness :
    Rfid.runOnce Rfid.sampleConfig
      { object_item := some Rfid.itemA, location_item := none, scanned_items := [] }
      (some (1, "ZZZZ")) true =
    ({ object_item := some Rfid.itemA, location_item := none, scanned_items := [] },
     false, none) :=
  c9_unknown_id_leaves_state_unchanged Rfid.sampleConfig
    { object_item := some Rfid.itemA, location_item := none, scanned_items := [] }
    1 "ZZZZ" true rfl rfl

/-- C5 (amended): when both pairing slots are occupied after processing a
scan, a delivery attempt is made in every case (a composed message is
produced); the slots are reset exactly when `transmit_message` returns
without raising — on a raised delivery error `run_once` returns `False`
and both slots remain occupied with the same pair. -/
theorem c5_slots_reset_iff_delivery_returns
    (cfg : Rfid.Config) (st : Rfid.ScannerState) (tagId : Nat) (itemId : String)
    (it : Rfid.ScannedItem)
    (hcr : Rfid.createScannedItem cfg itemId = some it)
    (hready : (Rfid.processScannedItem st it).2 = true) :
    (Rfid.runOnce cfg st (some (tagId, itemId)) true).1 = Rfid.resetScanState
    ∧ (Rfid.runOnce cfg st (some (tagId, itemId)) true).2.1 = true
    ∧ ((Rfid.runOnce cfg st (some (tagId, itemId)) true).2.2).isSome = true
    ∧ (Rfid.runOnce cfg st (some (tagId, itemId)) false).1 =
        (Rfid.processScannedItem st it).1
    ∧ (Rfid.runOnce cfg st (some (tagId, itemId)) false).2.1 = false
    ∧ ((Rfid.runOnce cfg st (some (tagId, itemId)) false).2.2).isSome = true
    ∧ ((Rfid.processScannedItem st it).1.object_item).isSome = true
    ∧ ((Rfid.processScannedItem st it).1.location_item).isSome = true := by
  cases hty : it.item_type with
  | object =>
    have hl : st.location_item.isSome = true := by
      simpa [Rfid.processScannedItem, hty] using hready
    obtain ⟨l, hl'⟩ := Option.isSome_iff_exists.mp hl
    simp [Rfid.runOnce, hcr, Rfid.processScannedItem, hty, hl']
  | location =>
    have ho : st.object_item.isSome = true := by
      simpa [Rfid.processScannedItem, hty] using hready
    obtain ⟨o, ho'⟩ := Option.isSome_iff_exists.mp ho
    simp [Rfid.runOnce, hcr, Rfid.processScannedItem, hty, ho']

/-- Witness for C5's amended theorem: scanning `loc001` while `obj001` is
pending, with a successful delivery, resets both slots. -/
theorem c5_slots_reset_witness :
    (Rfid.runOnce Rfid.sampleConfig
        { object_item := some Rfid.itemA, location_item := none, scanned_items := [] }
        (some (2, "loc001")) true).1 = Rfid.resetScanState
    ∧ (Rfid.runOnce Rfid.sampleConfig
        { object_item := some Rfid.itemA, location_item := none, scanned_items := [] }
        (some (2, "loc001")) true).2.1 = true :=
  have h := c5_slots_reset_iff_delivery_returns Rfid.sampleConfig
    { object_item := some Rfid.itemA, location_item := none, scanned_items := [] }
    2 "loc001" Rfid.itemL rfl rfl
  ⟨h.1, h.2.1⟩

/-- Counterexample to C5 as stated: scan `obj001` (no composition), then
`loc001` with the delivery raising — a composed message was produced (a
delivery attempt was made with both slots occupied), yet after `run_once`
both slots are still occupied rather than reset. -/
theorem c5_counterexample_failed_delivery_keeps_slots :
    ((Rfid.runOnce Rfid.sampleConfig
        (Rfid.runOnce Rfid.sampleConfig Rfid.initScanner (some (1, "obj001")) true).1
        (some (2, "loc001")) false).2.2).isSome = true
    ∧ (Rfid.runOnce Rfid.sampleConfig
        (Rfid.runOnce Rfid.sampleConfig Rfid.initScanner (some (1, "obj001")) true).1
        (some (2, "loc001")) false).1.object_item = some Rfid.itemA
    ∧ (Rfid.runOnce Rfid.sampleConfig
        (Rfid.runOnce Rfid.sampleConfig Rfid.initScanner (some (1, "obj001")) true).1
        (some (2, "loc001")) false).1.location_item = some Rfid.itemL
    ∧ (Rfid.runOnce Rfid.sampleConfig
        (Rfid.runOnce Rfid.sampleConfig Rfid.initScanner (some (1, "obj001")) true).1
        (some (2, "loc001")) false).2.1 = false :=
  ⟨rfl, rfl, rfl, rfl⟩

/-- C7: the code violates the fires-only-on-transition guarantee — after a
successful connect, two consecutive publish attempts whose sends raise
while the connection object stays open invoke `status_callback` with
`False` twice in a row (`_publish_to_rabbitmq` invokes the callback on
every send exception without checking whether the state was already
disconnected). -/
theorem c7_callback_refires_without_transition :
    (Etx.runEvents Etx.initEtx
      [Etx.EtxEvent.connectEv true,
       Etx.EtxEvent.publishEv (Etx.composeMessage [("k", "v")] 0) true false,
       Etx.EtxEvent.publishEv (Etx.composeMessage [("k", "v")] 0) true false]).callbackLog
      = [true, false, false] := by
  rfl

/-- C4: for every fallback file holding envelopes `0..N-1` (the files the
code produces are nonempty), replay attempts the envelopes in file order
and stops at the first failure: if envelope `k` is the first to fail, the
file afterwards contains exactly envelopes `k..N-1` in their original
order, and envelopes `0..k-1` were published in order; if all `N`
envelopes succeed (`k = N`), the file is deleted. -/
theorem c4_replay_keeps_ordered_tail
    (st : Etx.EtxState) (envs : List Etx.Envelope) (k : Nat) (oracle : Nat → Bool × Bool)
    (hfile : st.fallbackFile = some envs)
    (hlive : st.connectionLive = true)
    (hne : envs ≠ [])
    (hk : k ≤ envs.length)
    (hsucc : ∀ i, i < k → oracle i = (true, true))
    (hfail : k < envs.length → ((oracle k).1 && (oracle k).2) = false) :
    (Etx.processFallbackMessages st oracle).fallbackFile =
      (if k = envs.length then none else some (envs.drop k))
    ∧ (Etx.processFallbackMessages st oracle).published =
      st.published ++ (envs.take k).map (fun e => e.original_message) :=
  processFallbackMessages_spec st envs k oracle hfile hlive hne hk hsucc hfail

/-- Witness for C4: two queued envelopes, replay of the first succeeds and
of the second fails — the file afterwards holds exactly the second
envelope and the first original message was published. -/
theorem c4_replay_keeps_ordered_tail_witness :
    (Etx.processFallbackMessages Etx.sampleFallbackSt Etx.failAfterFirst).fallbackFile =
      some [Etx.sampleEnv2]
    ∧ (Etx.processFallbackMessages Etx.sampleFallbackSt Etx.failAfterFirst).published =
      [Etx.sampleEnv1.original_message] :=
  have h := c4_replay_keeps_ordered_tail Etx.sampleFallbackSt
    [Etx.sampleEnv1, Etx.sampleEnv2] 1 Etx.failAfterFirst rfl rfl
    (by decide) (by decide) (by decide) (by decide)
  ⟨h.1, h.2⟩

/-- A `transmit_message` call while the connection object is down appends
one envelope to the fallback file, clears the `connected` flag and changes
nothing else. -/
theorem transmitMessage_unreachable
    (st : Etx.EtxState) (d : Etx.Payload) (t : Nat)
    (hlive : st.connectionLive = false) (hd : d.isEmpty = false) :
    (Etx.transmitMessage st (.dict d) t true true true true).2 =
      { st with
        connected := false
        fallbackFile := some ((st.fallbackFile.getD []) ++
          [Etx.mkEnvelope (Etx.composeMessage d t) t]) } := by
  simp [Etx.transmitMessage, Etx.isConnectedCheck, Etx.saveToFallbackFile,
        Etx.getFallbackMessageCount, hd, hlive]

/-- A sequence of `transmit_message` calls while the connection object is
down appends one envelope per call to the fallback file, in call order. -/
theorem transmitAll_unreachable
    (calls : List (Etx.Payload × Nat)) (st : Etx.EtxState)
    (hlive : st.connectionLive = false) (hconn : st.connected = false)
    (hall : ∀ c ∈ calls, (Prod.fst c).isEmpty = false)
    (hne : calls ≠ []) :
    Etx.transmitAll st calls =
      { st with
        connected := false
        fallbackFile := some ((st.fallbackFile.getD []) ++
          calls.map (fun c => Etx.mkEnvelope (Etx.composeMessage c.1 c.2) c.2)) } := by
  induction calls generalizing st with
  | nil => exact absurd rfl hne
  | cons c rest ih =>
    rw [Etx.transmitAll,
        transmitMessage_unreachable st c.1 c.2 hlive (hall c (List.mem_cons_self c rest))]
    cases rest with
    | nil => simp [Etx.transmitAll]
    | cons c2 rest2 =>
      rw [ih { st with
               connected := false
               fallbackFile := some ((st.fallbackFile.getD []) ++
                 [Etx.mkEnvelope (Etx.composeMessage c.1 c.2) c.2]) }
            hlive rfl (fun x hx => hall x (List.mem_cons_of_mem c hx))
            (List.cons_ne_nil c2 rest2)]
      simp [List.append_assoc]

/-- C2: starting from a disconnected transmitter with no fallback file,
`N` `transmit_message` calls while the broker is unreachable (every direct
publish path fails, every fallback write succeeds) leave exactly `N`
messages in the fallback file; after the broker becomes reachable (a
successful `_connect_to_rabbitmq`, whose replay runs to completion), the
fallback count is `0` and all `N` composed messages were published in
their original arrival order — none is dropped. -/
theorem c2_no_message_lost
    (st : Etx.EtxState) (calls : List (Etx.Payload × Nat))
    (hlive : st.connectionLive = false) (hconn : st.connected = false)
    (hfile : st.fallbackFile = none)
    (hall : ∀ c ∈ calls, (Prod.fst c).isEmpty = false) :
    Etx.getFallbackMessageCount (Etx.transmitAll st calls) = calls.length
    ∧ Etx.getFallbackMessageCount
        (Etx.connectToRabbitmq (Etx.transmitAll st calls) true (fun _ => (true, true))) = 0
    ∧ (Etx.connectToRabbitmq (Etx.transmitAll st calls) true (fun _ => (true, true))).published
        = st.published ++ calls.map (fun c => Etx.composeMessage c.1 c.2) := by
  cases hc : calls with
  | nil =>
    subst hc
    simp [Etx.transmitAll, Etx.connectToRabbitmq, Etx.processFallbackMessages,
          Etx.getFallbackMessageCount, hconn, hfile]
  | cons c rest =>
    subst hc
    have hstN : Etx.transmitAll st (c :: rest) =
        { st with
          connected := false
          fallbackFile := some ((c :: rest).map
            (fun x => Etx.mkEnvelope (Etx.composeMessage x.1 x.2) x.2)) } := by
      rw [transmitAll_unreachable (c :: rest) st hlive hconn hall (List.cons_ne_nil c rest),
          hfile]
      rfl
    rw [hstN]
    have hconnEq :
        Etx.connectToRabbitmq
          { st with
            connected := false
            fallbackFile := some ((c :: rest).map
              (fun x => Etx.mkEnvelope (Etx.composeMessage x.1 x.2) x.2)) }
          true (fun _ => (true, true)) =
        Etx.processFallbackMessages
          { st with
            connected := true
            connectionLive := true
            fallbackFile := some ((c :: rest).map
              (fun x => Etx.mkEnvelope (Etx.composeMessage x.1 x.2) x.2))
            callbackLog := st.callbackLog ++ [true] }
          (fun _ => (true, true)) := rfl
    have hproc := processFallbackMessages_spec
      { st with
        connected := true
        connectionLive := true
        fallbackFile := some ((c :: rest).map
          (fun x => Etx.mkEnvelope (Etx.composeMessage x.1 x.2) x.2))
        callbackLog := st.callbackLog ++ [true] }
      ((c :: rest).map (fun x => Etx.mkEnvelope (Etx.composeMessage x.1 x.2) x.2))
      ((c :: rest).map (fun x => Etx.mkEnvelope (Etx.composeMessage x.1 x.2) x.2)).length
      (fun _ => (true, true)) rfl rfl (by simp) (Nat.le_refl _)
      (fun i _ => rfl) (fun h => absurd h (lt_irrefl _))
    refine ⟨by simp [Etx.getFallbackMessageCount], ?_, ?_⟩
    · rw [hconnEq]
      rw [Etx.getFallbackMessageCount, hproc.1, if_pos rfl]
      rfl
    · rw [hconnEq, hproc.2]
      simp only [List.take_length, List.map_map]
      rfl

/-- Witness for C2: two messages transmitted while the broker is
unreachable are both queued, and one successful reconnect replays both in
order and empties the queue. -/
theorem c2_no_message_lost_witness :
    Etx.getFallbackMessageCount
        (Etx.transmitAll Etx.initEtx [([("a", "1")], 1), ([("b", "2")], 2)]) = 2
    ∧ Etx.getFallbackMessageCount
        (Etx.connectToRabbitmq
          (Etx.transmitAll Etx.initEtx [([("a", "1")], 1), ([("b", "2")], 2)])
          true (fun _ => (true, true))) = 0
    ∧ (Etx.connectToRabbitmq
          (Etx.transmitAll Etx.initEtx [([("a", "1")], 1), ([("b", "2")], 2)])
          true (fun _ => (true, true))).published
        = Etx.initEtx.published ++
          [Etx.composeMessage [("a", "1")] 1, Etx.composeMessage [("b", "2")] 2] :=
  c2_no_message_lost Etx.initEtx [([("a", "1")], 1), ([("b", "2")], 2)]
    rfl rfl rfl (by decide)
